import Mathlib

set_option linter.unusedVariables false

/-!
Shallow embedding of the metrics gateway module (airflow/stats.py).

Python exceptions are modelled with an explicit exception type and
Except-valued functions; side effects (log records, calls into the
underlying statsd / dogstatsd wire clients) are returned explicitly as
lists of records.  Numeric payloads (counts, rates, gauge values,
durations) are carried opaquely by the module, so they are modelled as
integers.  Log message text is modelled as the source format string
with the dynamic parts concatenated in.
-/

/-- The exceptions the module raises or catches: InvalidStatsNameException,
AirflowConfigException, ImportError and socket.gaierror. -/
inductive PyException where
  | invalidStatsName (msg : String)
  | airflowConfigError (msg : String)
  | importError
  | gaierror
deriving DecidableEq

deriving instance DecidableEq for Except

/-- A Python value passed as a stat name: either a string or anything else
(the default handler only distinguishes these two cases). -/
inductive PyValue where
  | str (s : String)
  | nonStr
deriving DecidableEq

/-- ALLOWED_CHARACTERS = set(string.ascii_letters + string.digits + '_.-') -/
def ALLOWED_CHARACTERS : List Char :=
  "abcdefghijklmnopqrstuvwxyzABCDEFGHIJKLMNOPQRSTUVWXYZ0123456789_.-".data

/-- The characters Python str.strip() removes. -/
def py_is_space (c : Char) : Bool :=
  c = ' ' || c = '\t' || c = '\n' || c = '\r' || c = '\x0b' || c = '\x0c'

/-- Python str.strip(): drop leading and trailing whitespace. -/
def py_strip (s : String) : String :=
  ⟨((s.data.dropWhile py_is_space).reverse.dropWhile py_is_space).reverse⟩

/-- Python str.lower() (the stat names in scope are ASCII). -/
def py_lower (s : String) : String :=
  ⟨s.data.map Char.toLower⟩

/-- Python str.split(sep) for a one-character separator: split at every
occurrence, keeping empty pieces. -/
def py_split_char (sep : Char) : List Char → List (List Char)
  | [] => [[]]
  | c :: rest =>
    match py_split_char sep rest with
    | [] => if c = sep then [[], []] else [[c]]
    | h :: t => if c = sep then [] :: h :: t else (c :: h) :: t

/-- Python s.split(",") as a list of strings. -/
def py_split_comma (s : String) : List String :=
  (py_split_char ',' s.data).map fun l => ⟨l⟩

/-- Python s.startswith(p) for a single prefix p. -/
def py_startswith (s p : String) : Bool :=
  p.data.isPrefixOf s.data

def not_a_string_msg : String := "The stat_name has to be a string"

def too_long_msg (stat_name : String) (max_length : Nat) : String :=
  "The stat_name (" ++ stat_name ++ ") has to be less than " ++ toString max_length
    ++ " characters."

def bad_chars_msg (stat_name : String) : String :=
  "The stat name (" ++ stat_name ++ ") has to be composed with characters in ALLOWED_CHARACTERS."

/-- stat_name_default_handler: validates the statsd stat name and returns it
unchanged, raising InvalidStatsNameException for a non-string, an over-long
name, or a name with a character outside ALLOWED_CHARACTERS. -/
def stat_name_default_handler (stat_name : PyValue) (max_length : Nat) :
    Except PyException String :=
  match stat_name with
  | .nonStr => .error (.invalidStatsName not_a_string_msg)
  | .str s =>
    if s.length > max_length then
      .error (.invalidStatsName (too_long_msg s max_length))
    else if !(s.data.all fun c => ALLOWED_CHARACTERS.contains c) then
      .error (.invalidStatsName (bad_chars_msg s))
    else
      .ok s

/-- The type of a stat-name handler function (Callable[[str], str], raising). -/
abbrev StatNameHandler : Type := String → Except PyException String

/-- get_current_handler_stat_name_func: the configured handler
(scheduler/stat_name_handler) or, when that lookup yields None, the default
handler (called with its default max_length of 250). -/
def get_current_handler_stat_name_func (configured : Option StatNameHandler) :
    StatNameHandler :=
  match configured with
  | some h => h
  | none => fun s => stat_name_default_handler (.str s) 250

inductive LogLevel where
  | error
  | info
deriving DecidableEq

/-- One record emitted through the module logger. -/
structure LogEntry where
  level : LogLevel
  msg : String
deriving DecidableEq

/-- The record logged by the validate_stat wrapper on an invalid name:
log.error('Invalid stat name: %s.', stat). -/
def invalid_stat_log (stat : String) : LogEntry :=
  ⟨.error, "Invalid stat name: " ++ stat ++ "."⟩

/-- The observable outcome of one dispatcher operation: the log records it
produced, the calls it made on the underlying wire client (of call-record
type κ), and its return value (some () stands for the opaque value returned
by the client, none for an explicit return None). -/
structure EmitResult (κ : Type) where
  logs : List LogEntry
  calls : List κ
  ret : Option Unit

/-- validate_stat: resolve the current handler, apply it to the raw name and
run the wrapped body on the transformed name; on InvalidStatsNameException
log one error record naming the offending stat and return None; any other
exception propagates. -/
def validate_stat {κ : Type} (configured : Option StatNameHandler)
    (fn : String → EmitResult κ) (stat : String) :
    Except PyException (EmitResult κ) :=
  match get_current_handler_stat_name_func configured stat with
  | .ok stat_name => .ok (fn stat_name)
  | .error (.invalidStatsName _) => .ok ⟨[invalid_stat_log stat], [], none⟩
  | .error e => .error e

/-- AllowListValidator: allow_list is None when constructed from None or any
falsy (empty) string, otherwise the comma-split, stripped, lower-cased
tuple of prefixes. -/
structure AllowListValidator where
  allow_list : Option (List String)
deriving DecidableEq

/-- AllowListValidator.__init__ -/
def AllowListValidator.make (allow_list : Option String) : AllowListValidator :=
  match allow_list with
  | none => ⟨none⟩
  | some s =>
    if s = "" then ⟨none⟩
    else ⟨some ((py_split_comma s).map fun item => py_lower (py_strip item))⟩

/-- AllowListValidator.test: with no allow list every stat is allowed;
otherwise true iff the stripped, lower-cased stat starts with one of the
stored prefixes (str.startswith on a tuple). -/
def AllowListValidator.test (v : AllowListValidator) (stat : String) : Bool :=
  match v.allow_list with
  | some l => l.any fun p => py_startswith (py_lower (py_strip stat)) p
  | none => true

/-- A call made on the line-protocol statsd client, with the positional
arguments in source order. -/
inductive StatsdCall where
  | incr (stat : String) (count rate : Int)
  | decr (stat : String) (count rate : Int)
  | gauge (stat : String) (value rate : Int) (delta : Bool)
  | timing (stat : String) (dt : Int)
deriving DecidableEq

/-- A call made on the DogStatsd client, with the keyword arguments the
source passes (gauge passes no delta; timing passes no sample_rate). -/
inductive DogStatsdCall where
  | increment (metric : String) (value : Int) (tags : List String) (sample_rate : Int)
  | decrement (metric : String) (value : Int) (tags : List String) (sample_rate : Int)
  | gauge (metric : String) (value : Int) (tags : List String) (sample_rate : Int)
  | timing (metric : String) (value : Int) (tags : List String)
deriving DecidableEq

/-- The constructed statsd.StatsClient (its constructor arguments; pfx is
the prefix argument). -/
structure StatsClient where
  host : String
  port : Int
  pfx : String
deriving DecidableEq

/-- The constructed datadog.DogStatsd (its constructor arguments; ns is
the namespace argument). -/
structure DogStatsd where
  host : String
  port : Int
  ns : String
  constant_tags : List String
deriving DecidableEq

/-- SafeStatsdLogger: a statsd client plus an allow-list validator. -/
structure SafeStatsdLogger where
  statsd : StatsClient
  allow_list_validator : AllowListValidator
deriving DecidableEq

def SafeStatsdLogger.incr (l : SafeStatsdLogger) (configured : Option StatNameHandler)
    (stat : String) (count rate : Int) : Except PyException (EmitResult StatsdCall) :=
  validate_stat configured
    (fun stat_name =>
      if l.allow_list_validator.test stat_name then
        ⟨[], [.incr stat_name count rate], some ()⟩
      else ⟨[], [], none⟩)
    stat

def SafeStatsdLogger.decr (l : SafeStatsdLogger) (configured : Option StatNameHandler)
    (stat : String) (count rate : Int) : Except PyException (EmitResult StatsdCall) :=
  validate_stat configured
    (fun stat_name =>
      if l.allow_list_validator.test stat_name then
        ⟨[], [.decr stat_name count rate], some ()⟩
      else ⟨[], [], none⟩)
    stat

def SafeStatsdLogger.gauge (l : SafeStatsdLogger) (configured : Option StatNameHandler)
    (stat : String) (value rate : Int) (delta : Bool) :
    Except PyException (EmitResult StatsdCall) :=
  validate_stat configured
    (fun stat_name =>
      if l.allow_list_validator.test stat_name then
        ⟨[], [.gauge stat_name value rate delta], some ()⟩
      else ⟨[], [], none⟩)
    stat

def SafeStatsdLogger.timing (l : SafeStatsdLogger) (configured : Option StatNameHandler)
    (stat : String) (dt : Int) : Except PyException (EmitResult StatsdCall) :=
  validate_stat configured
    (fun stat_name =>
      if l.allow_list_validator.test stat_name then
        ⟨[], [.timing stat_name dt], some ()⟩
      else ⟨[], [], none⟩)
    stat

/-- SafeDogStatsdLogger: a DogStatsd client plus an allow-list validator. -/
structure SafeDogStatsdLogger where
  dogstatsd : DogStatsd
  allow_list_validator : AllowListValidator
deriving DecidableEq

/-- tags = tags or [] -/
def orEmpty (tags : Option (List String)) : List String :=
  match tags with
  | none => []
  | some t => t

def SafeDogStatsdLogger.incr (l : SafeDogStatsdLogger) (configured : Option StatNameHandler)
    (stat : String) (count rate : Int) (tags : Option (List String)) :
    Except PyException (EmitResult DogStatsdCall) :=
  validate_stat configured
    (fun stat_name =>
      if l.allow_list_validator.test stat_name then
        ⟨[], [.increment stat_name count (orEmpty tags) rate], some ()⟩
      else ⟨[], [], none⟩)
    stat

def SafeDogStatsdLogger.decr (l : SafeDogStatsdLogger) (configured : Option StatNameHandler)
    (stat : String) (count rate : Int) (tags : Option (List String)) :
    Except PyException (EmitResult DogStatsdCall) :=
  validate_stat configured
    (fun stat_name =>
      if l.allow_list_validator.test stat_name then
        ⟨[], [.decrement stat_name count (orEmpty tags) rate], some ()⟩
      else ⟨[], [], none⟩)
    stat

def SafeDogStatsdLogger.gauge (l : SafeDogStatsdLogger) (configured : Option StatNameHandler)
    (stat : String) (value rate : Int) (delta : Bool) (tags : Option (List String)) :
    Except PyException (EmitResult DogStatsdCall) :=
  validate_stat configured
    (fun stat_name =>
      if l.allow_list_validator.test stat_name then
        ⟨[], [.gauge stat_name value (orEmpty tags) rate], some ()⟩
      else ⟨[], [], none⟩)
    stat

def SafeDogStatsdLogger.timing (l : SafeDogStatsdLogger) (configured : Option StatNameHandler)
    (stat : String) (dt : Int) (tags : Option (List String)) :
    Except PyException (EmitResult DogStatsdCall) :=
  validate_stat configured
    (fun stat_name =>
      if l.allow_list_validator.test stat_name then
        ⟨[], [.timing stat_name dt (orEmpty tags)], some ()⟩
      else ⟨[], [], none⟩)
    stat

/-- DummyStatsLogger: every operation is a no-op returning None; there is no
underlying client, so the call-record type is Empty. -/
def DummyStatsLogger.incr (stat : String) (count rate : Int) : EmitResult Empty :=
  ⟨[], [], none⟩

def DummyStatsLogger.decr (stat : String) (count rate : Int) : EmitResult Empty :=
  ⟨[], [], none⟩

def DummyStatsLogger.gauge (stat : String) (value rate : Int) (delta : Bool) :
    EmitResult Empty :=
  ⟨[], [], none⟩

def DummyStatsLogger.timing (stat : String) (dt : Int) : EmitResult Empty :=
  ⟨[], [], none⟩

/-- A custom Statsd client class configured via statsd_custom_client_path;
the only property the module inspects is whether it is a subclass of
statsd.StatsClient. -/
structure CustomClientClass where
  extends_stats_client : Bool
deriving DecidableEq

/-- The scheduler section of the configuration, as read by the module.
statsd_datadog_enabled is None when conf.has_option is false; pfx holds
statsd_prefix. -/
structure SchedulerConf where
  statsd_on : Bool
  statsd_datadog_enabled : Option Bool
  statsd_host : String
  statsd_port : Int
  pfx : String
  statsd_allow_list : Option String
  statsd_custom_client_path : Option CustomClientClass
  statsd_datadog_tags : Option String
  stat_name_handler : Option StatNameHandler

/-- The environment a backend construction runs in: the configuration plus
whether each import and each client construction succeeds (importing
StatsClient from statsd or DogStatsd from datadog can raise ImportError;
constructing a client can raise socket.gaierror on name resolution). -/
structure Env where
  conf : SchedulerConf
  statsd_import_ok : Bool
  datadog_import_ok : Bool
  statsd_construct_ok : Bool
  dogstatsd_construct_ok : Bool

/-- The instance the metaclass stores: one of the three backends. -/
inductive StatsInstance where
  | dummy
  | statsd (logger : SafeStatsdLogger)
  | dogstatsd (logger : SafeDogStatsdLogger)

def custom_client_msg : String :=
  "Your custom Statsd client must extend the statsd.StatsClient in order to ensure backwards compatibility."

def custom_client_loaded_log : LogEntry :=
  ⟨.info, "Successfully loaded custom Statsd client"⟩

/-- _Stats.get_statsd_logger: import StatsClient, resolve and check any
custom client class (AirflowConfigException when it does not extend
StatsClient), construct the client with host, port and prefix, and wrap it
with an allow-list validator built from statsd_allow_list. -/
def get_statsd_logger (env : Env) :
    Except PyException (StatsInstance × List LogEntry) :=
  if !env.statsd_import_ok then .error .importError
  else
    match env.conf.statsd_custom_client_path with
    | some cls =>
      if !cls.extends_stats_client then
        .error (.airflowConfigError custom_client_msg)
      else if !env.statsd_construct_ok then .error .gaierror
      else
        .ok (.statsd ⟨⟨env.conf.statsd_host, env.conf.statsd_port, env.conf.pfx⟩,
              AllowListValidator.make env.conf.statsd_allow_list⟩,
            [custom_client_loaded_log])
    | none =>
      if !env.statsd_construct_ok then .error .gaierror
      else
        .ok (.statsd ⟨⟨env.conf.statsd_host, env.conf.statsd_port, env.conf.pfx⟩,
              AllowListValidator.make env.conf.statsd_allow_list⟩,
            [])

/-- _Stats.get_constant_tags: the comma-split statsd_datadog_tags, or []
when the key is absent or empty. -/
def get_constant_tags (c : SchedulerConf) : List String :=
  match c.statsd_datadog_tags with
  | none => []
  | some s => if s = "" then [] else py_split_comma s

/-- _Stats.get_dogstatsd_logger: import DogStatsd, construct it with host,
port, namespace and constant tags, and wrap it with an allow-list validator
built from statsd_allow_list. -/
def get_dogstatsd_logger (env : Env) :
    Except PyException (StatsInstance × List LogEntry) :=
  if !env.datadog_import_ok then .error .importError
  else if !env.dogstatsd_construct_ok then .error .gaierror
  else
    .ok (.dogstatsd ⟨⟨env.conf.statsd_host, env.conf.statsd_port, env.conf.pfx,
          get_constant_tags env.conf⟩,
        AllowListValidator.make env.conf.statsd_allow_list⟩,
      [])

/-- is_datadog_enabled_defined and conf.getboolean: the option is present
and parses to true. -/
def datadog_enabled (c : SchedulerConf) : Bool :=
  c.statsd_datadog_enabled.isSome && c.statsd_datadog_enabled.getD false

/-- The body of the try block in _Stats.__init__: pick the backend in
priority order. -/
def select_backend (env : Env) :
    Except PyException (StatsInstance × List LogEntry) :=
  if datadog_enabled env.conf then get_dogstatsd_logger env
  else if env.conf.statsd_on then get_statsd_logger env
  else .ok (.dummy, [])

def could_not_configure_log (e : String) : LogEntry :=
  ⟨.error, "Could not configure StatsClient: " ++ e ++ ", using DummyStatsLogger instead."⟩

/-- _Stats.__init__: when no instance is stored yet, select and construct a
backend, falling back to DummyStatsLogger with one error log when the
attempt raises socket.gaierror or ImportError; any other exception
propagates.  When an instance is already stored, it is left unchanged and
nothing is re-evaluated. -/
def stats_init (env : Env) (inst : Option StatsInstance) :
    Except PyException (StatsInstance × List LogEntry) :=
  match inst with
  | some i => .ok (i, [])
  | none =>
    match select_backend env with
    | .ok (i, logs) => .ok (i, logs)
    | .error .gaierror => .ok (.dummy, [could_not_configure_log "gaierror"])
    | .error .importError => .ok (.dummy, [could_not_configure_log "ImportError"])
    | .error e => .error e

/-- env with the statsd_on flag replaced (all other fields unchanged). -/
def set_statsd_on (env : Env) (b : Bool) : Env :=
  ⟨⟨b, env.conf.statsd_datadog_enabled, env.conf.statsd_host, env.conf.statsd_port,
    env.conf.pfx, env.conf.statsd_allow_list, env.conf.statsd_custom_client_path,
    env.conf.statsd_datadog_tags, env.conf.stat_name_handler⟩,
   env.statsd_import_ok, env.datadog_import_ok, env.statsd_construct_ok,
   env.dogstatsd_construct_ok⟩

theorem datadog_enabled_eq_false_iff (c : SchedulerConf) :
    datadog_enabled c = false ↔ c.statsd_datadog_enabled ≠ some true := by
  unfold datadog_enabled
  cases h : c.statsd_datadog_enabled with
  | none => simp
  | some b => cases b <;> simp

/-- C1: backend selection follows the priority order: a present-and-true
datadog flag selects the DogStatsd path whatever statsd_on is; otherwise a
true statsd_on selects the statsd path; otherwise the dummy backend. -/
theorem backend_selection_priority (env : Env) (b : Bool) :
    (env.conf.statsd_datadog_enabled = some true →
      select_backend env = get_dogstatsd_logger env) ∧
    (env.conf.statsd_datadog_enabled = some true →
      select_backend (set_statsd_on env b) = get_dogstatsd_logger env) ∧
    (env.conf.statsd_datadog_enabled = some true → env.datadog_import_ok = true →
      env.dogstatsd_construct_ok = true →
      stats_init env none =
        .ok (.dogstatsd ⟨⟨env.conf.statsd_host, env.conf.statsd_port, env.conf.pfx,
              get_constant_tags env.conf⟩,
            AllowListValidator.make env.conf.statsd_allow_list⟩, [])) ∧
    (env.conf.statsd_datadog_enabled ≠ some true → env.conf.statsd_on = true →
      select_backend env = get_statsd_logger env) ∧
    (env.conf.statsd_datadog_enabled ≠ some true → env.conf.statsd_on = false →
      select_backend env = .ok (.dummy, [])) := by
  refine ⟨?_, ?_, ?_, ?_, ?_⟩
  · intro h
    have hd : datadog_enabled env.conf = true := by simp [datadog_enabled, h]
    simp [select_backend, hd]
  · intro h
    simp [select_backend, set_statsd_on, datadog_enabled, h, get_dogstatsd_logger,
      get_constant_tags]
  · intro h himp hcon
    have hd : datadog_enabled env.conf = true := by simp [datadog_enabled, h]
    simp [stats_init, select_backend, hd, get_dogstatsd_logger, himp, hcon]
  · intro h hon
    have hd : datadog_enabled env.conf = false := (datadog_enabled_eq_false_iff _).mpr h
    simp [select_backend, hd, hon]
  · intro h hoff
    have hd : datadog_enabled env.conf = false := (datadog_enabled_eq_false_iff _).mpr h
    simp [select_backend, hd, hoff]

/-- C1 witness: with the datadog flag set to true, statsd_on true and both
construction steps succeeding, the stored instance is the DogStatsd one. -/
theorem backend_selection_priority_witness :
    stats_init
      ⟨⟨true, some true, "localhost", 8125, "airflow", none, none, some "k:v", none⟩,
        true, true, true, true⟩ none =
      .ok (.dogstatsd ⟨⟨"localhost", 8125, "airflow", ["k:v"]⟩,
        AllowListValidator.make none⟩, []) :=
  (backend_selection_priority
      ⟨⟨true, some true, "localhost", 8125, "airflow", none, none, some "k:v", none⟩,
        true, true, true, true⟩ false).2.2.1 rfl rfl rfl

/-- C2: when backend construction raises socket.gaierror or ImportError,
initialization completes without raising, stores the dummy backend and logs
once at error severity. -/
theorem construction_failure_falls_back (env : Env) :
    (select_backend env = .error .gaierror →
      stats_init env none = .ok (.dummy, [could_not_configure_log "gaierror"])) ∧
    (select_backend env = .error .importError →
      stats_init env none = .ok (.dummy, [could_not_configure_log "ImportError"])) := by
  constructor <;> intro h <;> unfold stats_init <;> rw [h]

/-- C2 witness: with the datadog flag true and the datadog import failing,
initialization yields the dummy backend and the error log. -/
theorem construction_failure_falls_back_witness :
    stats_init
      ⟨⟨true, some true, "localhost", 8125, "airflow", none, none, none, none⟩,
        true, false, true, true⟩ none =
      .ok (.dummy, [could_not_configure_log "ImportError"]) :=
  (construction_failure_falls_back
      ⟨⟨true, some true, "localhost", 8125, "airflow", none, none, none, none⟩,
        true, false, true, true⟩).2 rfl

/-- C3: a configured custom statsd client class that does not extend
statsd.StatsClient makes initialization fail with AirflowConfigException,
propagated to the caller rather than swallowed into the dummy backend; a
conforming class is accepted and used. -/
theorem custom_client_misconfig_fatal (env : Env) (cls : CustomClientClass)
    (hdd : env.conf.statsd_datadog_enabled ≠ some true)
    (hon : env.conf.statsd_on = true)
    (himp : env.statsd_import_ok = true)
    (hcls : env.conf.statsd_custom_client_path = some cls) :
    (cls.extends_stats_client = false →
      stats_init env none = .error (.airflowConfigError custom_client_msg)) ∧
    (cls.extends_stats_client = true → env.statsd_construct_ok = true →
      stats_init env none =
        .ok (.statsd ⟨⟨env.conf.statsd_host, env.conf.statsd_port, env.conf.pfx⟩,
              AllowListValidator.make env.conf.statsd_allow_list⟩,
            [custom_client_loaded_log])) := by
  have hdf : datadog_enabled env.conf = false := (datadog_enabled_eq_false_iff _).mpr hdd
  constructor
  · intro hext
    simp [stats_init, select_backend, get_statsd_logger, hdf, hon, himp, hcls, hext]
  · intro hext hok
    simp [stats_init, select_backend, get_statsd_logger, hdf, hon, himp, hcls, hext, hok]

/-- C3 witness: a non-conforming custom client class aborts initialization
with AirflowConfigException. -/
theorem custom_client_misconfig_fatal_witness :
    stats_init
      ⟨⟨true, none, "localhost", 8125, "airflow", none, some ⟨false⟩, none, none⟩,
        true, true, true, true⟩ none =
      .error (.airflowConfigError custom_client_msg) :=
  (custom_client_misconfig_fatal
      ⟨⟨true, none, "localhost", 8125, "airflow", none, some ⟨false⟩, none, none⟩,
        true, true, true, true⟩ ⟨false⟩ (by decide) rfl rfl rfl).1 rfl

/-- C4: a stored instance is left unchanged by any later initialization, and
the outcome does not depend on the environment, so no re-resolution takes
place even if configuration changes. -/
theorem backend_selection_cached (env env2 : Env) (i : StatsInstance) :
    stats_init env (some i) = .ok (i, []) ∧
    stats_init env (some i) = stats_init env2 (some i) :=
  ⟨rfl, rfl⟩

/-- C5: a name the active handler rejects with InvalidStatsNameException
makes every dispatcher operation return None without raising, log exactly
one error record naming the offending stat, and call nothing on the
underlying client. -/
theorem invalid_name_dropped_and_logged (configured : Option StatNameHandler)
    (sl : SafeStatsdLogger) (dl : SafeDogStatsdLogger) (stat m : String)
    (count rate value dt : Int) (delta : Bool) (tags : Option (List String))
    (h : get_current_handler_stat_name_func configured stat =
      .error (.invalidStatsName m)) :
    sl.incr configured stat count rate = .ok ⟨[invalid_stat_log stat], [], none⟩ ∧
    sl.decr configured stat count rate = .ok ⟨[invalid_stat_log stat], [], none⟩ ∧
    sl.gauge configured stat value rate delta = .ok ⟨[invalid_stat_log stat], [], none⟩ ∧
    sl.timing configured stat dt = .ok ⟨[invalid_stat_log stat], [], none⟩ ∧
    dl.incr configured stat count rate tags = .ok ⟨[invalid_stat_log stat], [], none⟩ ∧
    dl.decr configured stat count rate tags = .ok ⟨[invalid_stat_log stat], [], none⟩ ∧
    dl.gauge configured stat value rate delta tags =
      .ok ⟨[invalid_stat_log stat], [], none⟩ ∧
    dl.timing configured stat dt tags = .ok ⟨[invalid_stat_log stat], [], none⟩ := by
  unfold SafeStatsdLogger.incr SafeStatsdLogger.decr SafeStatsdLogger.gauge
    SafeStatsdLogger.timing SafeDogStatsdLogger.incr SafeDogStatsdLogger.decr
    SafeDogStatsdLogger.gauge SafeDogStatsdLogger.timing validate_stat
  rw [h]
  exact ⟨rfl, rfl, rfl, rfl, rfl, rfl, rfl, rfl⟩

/-- C5 witness: with the default handler and the invalid name "bad name!",
incr on a concrete statsd dispatcher returns the logged no-op outcome. -/
theorem invalid_name_dropped_and_logged_witness :
    SafeStatsdLogger.incr ⟨⟨"localhost", 8125, "airflow"⟩, AllowListValidator.make none⟩
      none "bad name!" 1 1 = .ok ⟨[invalid_stat_log "bad name!"], [], none⟩ :=
  (invalid_name_dropped_and_logged none
    ⟨⟨"localhost", 8125, "airflow"⟩, AllowListValidator.make none⟩
    ⟨⟨"localhost", 8125, "airflow", []⟩, AllowListValidator.make none⟩
    "bad name!" (bad_chars_msg "bad name!") 1 1 2 3 false none (by decide)).1

/-- C6: a name the handler accepts but the allow list rejects makes every
dispatcher operation return None without raising, with no log record and no
call on the underlying client. -/
theorem filtered_name_silently_dropped (configured : Option StatNameHandler)
    (sl : SafeStatsdLogger) (dl : SafeDogStatsdLogger) (stat n : String)
    (count rate value dt : Int) (delta : Bool) (tags : Option (List String))
    (h : get_current_handler_stat_name_func configured stat = .ok n)
    (hsl : sl.allow_list_validator.test n = false)
    (hdl : dl.allow_list_validator.test n = false) :
    sl.incr configured stat count rate = .ok ⟨[], [], none⟩ ∧
    sl.decr configured stat count rate = .ok ⟨[], [], none⟩ ∧
    sl.gauge configured stat value rate delta = .ok ⟨[], [], none⟩ ∧
    sl.timing configured stat dt = .ok ⟨[], [], none⟩ ∧
    dl.incr configured stat count rate tags = .ok ⟨[], [], none⟩ ∧
    dl.decr configured stat count rate tags = .ok ⟨[], [], none⟩ ∧
    dl.gauge configured stat value rate delta tags = .ok ⟨[], [], none⟩ ∧
    dl.timing configured stat dt tags = .ok ⟨[], [], none⟩ := by
  unfold SafeStatsdLogger.incr SafeStatsdLogger.decr SafeStatsdLogger.gauge
    SafeStatsdLogger.timing SafeDogStatsdLogger.incr SafeDogStatsdLogger.decr
    SafeDogStatsdLogger.gauge SafeDogStatsdLogger.timing validate_stat
  rw [h]
  simp [hsl, hdl]

/-- C6 witness: "baz" passes validation, is rejected by the allow list
"foo,bar", and gauge on a concrete statsd dispatcher returns the silent
no-op outcome. -/
theorem filtered_name_silently_dropped_witness :
    SafeStatsdLogger.gauge
      ⟨⟨"localhost", 8125, "airflow"⟩, AllowListValidator.make (some "foo,bar")⟩
      none "baz" 7 1 false = .ok ⟨[], [], none⟩ :=
  (filtered_name_silently_dropped none
    ⟨⟨"localhost", 8125, "airflow"⟩, AllowListValidator.make (some "foo,bar")⟩
    ⟨⟨"localhost", 8125, "airflow", []⟩, AllowListValidator.make (some "foo,bar")⟩
    "baz" "baz" 1 1 7 3 false none (by decide) (by decide) (by decide)).2.2.1

/-- C7: the default name validator returns strings of length at most 250
over the allowed character set unchanged, and fails with
InvalidStatsNameException on a non-string, an over-long string, or a string
with a character outside the allowed set. -/
theorem stat_name_default_handler_spec (s : String) (max_length : Nat) :
    ((s.length ≤ 250 ∧ (s.data.all fun c => ALLOWED_CHARACTERS.contains c) = true) →
      stat_name_default_handler (.str s) 250 = .ok s) ∧
    (stat_name_default_handler .nonStr max_length =
      .error (.invalidStatsName not_a_string_msg)) ∧
    (s.length > max_length →
      stat_name_default_handler (.str s) max_length =
        .error (.invalidStatsName (too_long_msg s max_length))) ∧
    ((s.data.all fun c => ALLOWED_CHARACTERS.contains c) = false →
      ∃ m, stat_name_default_handler (.str s) max_length =
        .error (.invalidStatsName m)) := by
  refine ⟨?_, rfl, ?_, ?_⟩
  · rintro ⟨hlen, hall⟩
    simp at hall
    simp [stat_name_default_handler, Nat.not_lt.mpr hlen]
    exact hall
  · intro h
    simp [stat_name_default_handler, h]
  · intro h
    rcases Nat.lt_or_ge max_length s.length with hlen | hlen
    · exact ⟨too_long_msg s max_length, by simp [stat_name_default_handler, hlen]⟩
    · refine ⟨bad_chars_msg s, ?_⟩
      simp at h
      simp [stat_name_default_handler, Nat.not_lt.mpr hlen]
      exact h

/-- C7 witness: a well-formed name comes back unchanged, an over-long name
and a name with a space and an exclamation mark are rejected. -/
theorem stat_name_default_handler_spec_witness :
    stat_name_default_handler (.str "task.duration-1_ok") 250 =
      .ok "task.duration-1_ok" ∧
    stat_name_default_handler (.str "toolong") 3 =
      .error (.invalidStatsName (too_long_msg "toolong" 3)) ∧
    ∃ m, stat_name_default_handler (.str "bad name!") 250 =
      .error (.invalidStatsName m) :=
  ⟨(stat_name_default_handler_spec "task.duration-1_ok" 250).1 ⟨by decide, by decide⟩,
   (stat_name_default_handler_spec "toolong" 3).2.2.1 (by decide),
   (stat_name_default_handler_spec "bad name!" 250).2.2.2 (by decide)⟩

/-- C8: an allow-list validator built from None or from the empty string
allows every stat. -/
theorem allow_list_empty_passthrough (x : String) :
    (AllowListValidator.make none).test x = true ∧
    (AllowListValidator.make (some "")).test x = true :=
  ⟨rfl, rfl⟩

/-- C9: a validator built from a non-empty string stores the comma-split,
stripped, lower-cased tokens, test accepts exactly the stats whose
stripped, lower-cased form starts with one of them, and on "foo,bar" it
accepts "foo.baz" and "BAR123" but not "baz". -/
theorem allow_list_prefix_matching (s x : String) :
    (s ≠ "" →
      (AllowListValidator.make (some s)).allow_list =
        some ((py_split_comma s).map fun item => py_lower (py_strip item)) ∧
      ((AllowListValidator.make (some s)).test x = true ↔
        ∃ item ∈ py_split_comma s,
          py_startswith (py_lower (py_strip x)) (py_lower (py_strip item)) = true)) ∧
    (AllowListValidator.make (some "foo,bar")).test "foo.baz" = true ∧
    (AllowListValidator.make (some "foo,bar")).test "BAR123" = true ∧
    (AllowListValidator.make (some "foo,bar")).test "baz" = false := by
  refine ⟨?_, by decide, by decide, by decide⟩
  intro h
  constructor
  · simp [AllowListValidator.make, h]
  · simp [AllowListValidator.make, AllowListValidator.test, h, List.any_map,
      List.any_eq_true, Function.comp]

/-- C9 witness: on the configuration "foo,bar" the stored prefixes are
"foo" and "bar" and "foo.baz" matches the stored prefix "foo". -/
theorem allow_list_prefix_matching_witness :
    (AllowListValidator.make (some "foo,bar")).allow_list = some ["foo", "bar"] ∧
    ((AllowListValidator.make (some "foo,bar")).test "foo.baz" = true ↔
      ∃ item ∈ py_split_comma "foo,bar",
        py_startswith (py_lower (py_strip "foo.baz")) (py_lower (py_strip item)) = true) := by
  have h := (allow_list_prefix_matching "foo,bar" "foo.baz").1 (by decide)
  exact ⟨by rw [h.1]; decide, h.2⟩

/-- C10: on a validated, allowed name the DogStatsd gauge forwards metric,
value, tags and sample_rate and drops delta (the forwarded call is the same
for delta true and false), while the statsd gauge forwards delta as the
fourth positional argument. -/
theorem dog_gauge_drops_delta (configured : Option StatNameHandler)
    (sl : SafeStatsdLogger) (dl : SafeDogStatsdLogger) (stat n : String)
    (value rate : Int) (delta : Bool) (tags : Option (List String))
    (h : get_current_handler_stat_name_func configured stat = .ok n)
    (hdl : dl.allow_list_validator.test n = true)
    (hsl : sl.allow_list_validator.test n = true) :
    dl.gauge configured stat value rate true tags =
      dl.gauge configured stat value rate false tags ∧
    dl.gauge configured stat value rate delta tags =
      .ok ⟨[], [.gauge n value (orEmpty tags) rate], some ()⟩ ∧
    sl.gauge configured stat value rate delta =
      .ok ⟨[], [.gauge n value rate delta], some ()⟩ := by
  unfold SafeDogStatsdLogger.gauge SafeStatsdLogger.gauge validate_stat
  rw [h]
  simp [hdl, hsl]

/-- C10 witness: at the valid allowed name "foo.baz", the concrete DogStatsd
dispatcher forwards the same call for delta true and false and the statsd
dispatcher forwards delta. -/
theorem dog_gauge_drops_delta_witness :
    SafeDogStatsdLogger.gauge
        ⟨⟨"localhost", 8125, "airflow", []⟩, AllowListValidator.make (some "foo,bar")⟩
        none "foo.baz" 7 1 true (some ["t:1"]) =
      SafeDogStatsdLogger.gauge
        ⟨⟨"localhost", 8125, "airflow", []⟩, AllowListValidator.make (some "foo,bar")⟩
        none "foo.baz" 7 1 false (some ["t:1"]) ∧
    SafeStatsdLogger.gauge
        ⟨⟨"localhost", 8125, "airflow"⟩, AllowListValidator.make (some "foo,bar")⟩
        none "foo.baz" 7 1 true =
      .ok ⟨[], [.gauge "foo.baz" 7 1 true], some ()⟩ :=
  have h := dog_gauge_drops_delta none
    ⟨⟨"localhost", 8125, "airflow"⟩, AllowListValidator.make (some "foo,bar")⟩
    ⟨⟨"localhost", 8125, "airflow", []⟩, AllowListValidator.make (some "foo,bar")⟩
    "foo.baz" "foo.baz" 7 1 true (some ["t:1"]) (by decide) (by decide) (by decide)
  ⟨h.1, h.2.2⟩
